import Mathlib

/-!
Verification of the vendored controller-runtime zap logging helper
(`vendor/sigs.k8s.io/controller-runtime/pkg/log/zap/zap.go`).

The Go file is configuration glue: an `Options` record populated by
functional setters, a defaulting pass `addDefaults`, a constructor
`NewRaw`, and a flag binder `BindFlags`.  The embedding below mirrors the
Go code; the external zap library values (writers, encoders, level
enablers, `zap.Option` values) are modelled symbolically, recording
exactly the structure the helper builds.
-/

namespace CRZap

/-- Zap severity levels are signed integers: Debug = -1. -/
def DebugLevel : Int := -1

/-- Info = 0. -/
def InfoLevel : Int := 0

/-- Warn = 1. -/
def WarnLevel : Int := 1

/-- Error = 2. -/
def ErrorLevel : Int := 2

/-- An `io.Writer` destination, symbolic: `os.Stderr` or any other
caller-supplied writer identified by a tag. -/
inductive Writer where
  | stderr : Writer
  | custom : Nat → Writer
deriving DecidableEq, Repr

/-- A `zapcore.WriteSyncer` produced by `zapcore.AddSync`; the argument is
the wrapped writer (an interface value, hence possibly nil = `none`). -/
inductive Sink where
  | synced : Option Writer → Sink
deriving DecidableEq, Repr

/-- `zapcore.AddSync`. -/
def zapcoreAddSync (w : Option Writer) : Sink := Sink.synced w

/-- A `zapcore.LevelEnabler`.  `atomic l` is `zap.NewAtomicLevelAt(l)`,
whose `Enabled(x)` is `l ≤ x`.  `custom id b` is an arbitrary
caller-supplied enabler; the only level the Go file ever queries on a
caller-supplied enabler is `-2`, and `b` records that enabler's verdict. -/
inductive LevelEnabler where
  | atomic : Int → LevelEnabler
  | custom : Nat → Bool → LevelEnabler
deriving DecidableEq, Repr

/-- `LevelEnabler.Enabled`. -/
def LevelEnabler.Enabled : LevelEnabler → Int → Bool
  | .atomic lvl, l => decide (lvl ≤ l)
  | .custom _ b, _ => b

/-- An `EncoderConfigOption` customizer, symbolic (identified by a tag). -/
abbrev EncoderConfigOption := Nat

/-- A `zapcore.EncoderConfig`: a base config (production or development)
together with the customizers applied to it, in order. -/
structure EncoderConfig where
  development : Bool
  applied : List EncoderConfigOption
deriving DecidableEq, Repr

/-- `zap.NewProductionEncoderConfig()`. -/
def NewProductionEncoderConfig : EncoderConfig := ⟨false, []⟩

/-- `zap.NewDevelopmentEncoderConfig()`. -/
def NewDevelopmentEncoderConfig : EncoderConfig := ⟨true, []⟩

/-- The `for _, opt := range opts { opt(&encoderConfig) }` loop: each
customizer is recorded on the config in order. -/
def EncoderConfig.applyOpts (cfg : EncoderConfig) (opts : List EncoderConfigOption) :
    EncoderConfig :=
  { cfg with applied := cfg.applied ++ opts }

/-- A `zapcore.Encoder`: built by `zapcore.NewJSONEncoder` or
`zapcore.NewConsoleEncoder` from a config, set directly by the caller
(`customEncoder`), or built by a caller-supplied `NewEncoderFunc`
(`customMade`, recording the customizers it was handed). -/
inductive ZapEncoder where
  | json : EncoderConfig → ZapEncoder
  | console : EncoderConfig → ZapEncoder
  | customEncoder : Nat → ZapEncoder
  | customMade : Nat → List EncoderConfigOption → ZapEncoder
deriving DecidableEq, Repr

/-- `newJSONEncoder` from the Go file: production config, customizers
applied, then `zapcore.NewJSONEncoder`. -/
def newJSONEncoder (opts : List EncoderConfigOption) : ZapEncoder :=
  ZapEncoder.json (NewProductionEncoderConfig.applyOpts opts)

/-- `newConsoleEncoder` from the Go file: development config, customizers
applied, then `zapcore.NewConsoleEncoder`. -/
def newConsoleEncoder (opts : List EncoderConfigOption) : ZapEncoder :=
  ZapEncoder.console (NewDevelopmentEncoderConfig.applyOpts opts)

/-- A `NewEncoderFunc` value: the file's own `newJSONEncoder` or
`newConsoleEncoder`, or a caller-supplied constructor (tagged). -/
inductive NewEncoderFunc where
  | newJSONEncoder : NewEncoderFunc
  | newConsoleEncoder : NewEncoderFunc
  | custom : Nat → NewEncoderFunc
deriving DecidableEq, Repr

/-- Calling a `NewEncoderFunc` on a list of customizers. -/
def NewEncoderFunc.run : NewEncoderFunc → List EncoderConfigOption → ZapEncoder
  | .newJSONEncoder, opts => CRZap.newJSONEncoder opts
  | .newConsoleEncoder, opts => CRZap.newConsoleEncoder opts
  | .custom id, opts => ZapEncoder.customMade id opts

/-- A `zap.Option` value, symbolic: the ones the Go file constructs
(`zap.Development()`, `zap.AddStacktrace`, the `zap.WrapCore` sampler
wrapper with `zapcore.NewSampler(core, tick, first, thereafter)`,
`zap.AddCallerSkip`, `zap.ErrorOutput`) plus arbitrary caller-supplied
options (tagged). -/
inductive ZapOpt where
  | development : ZapOpt
  | addStacktrace : Option LevelEnabler → ZapOpt
  | wrapCoreSampler : Nat → Nat → Nat → ZapOpt
  | addCallerSkip : Nat → ZapOpt
  | errorOutput : Sink → ZapOpt
  | custom : Nat → ZapOpt
deriving DecidableEq, Repr

/-- The sampler wrapper appended by `addDefaults` in production mode:
`zap.WrapCore(core ↦ zapcore.NewSampler(core, time.Second, 100, 100))`
(a one-second tick, first 100 entries logged, then 1-in-100). -/
def samplerOpt : ZapOpt := ZapOpt.wrapCoreSampler 1 100 100

/-- The `Options` struct.  Go nil-able fields (interfaces, function
pointers) are `Option`-typed; `nil` is `none`. -/
structure Options where
  Development : Bool
  Encoder : Option ZapEncoder
  EncoderConfigOptions : List EncoderConfigOption
  NewEncoder : Option NewEncoderFunc
  DestWritter : Option Writer
  Level : Option LevelEnabler
  StacktraceLevel : Option LevelEnabler
  ZapOpts : List ZapOpt
deriving DecidableEq, Repr

/-- `&Options{}`: the zero value every `NewRaw` call starts from. -/
def Options.empty : Options :=
  { Development := false
    Encoder := none
    EncoderConfigOptions := []
    NewEncoder := none
    DestWritter := none
    Level := none
    StacktraceLevel := none
    ZapOpts := [] }

instance : Inhabited Options := ⟨Options.empty⟩

/-- `o.Level.Enabled(zapcore.Level(-2))` as called by `addDefaults` (the
Go code only reaches this call with a non-nil `Level`). -/
def levelEnabledNeg2 : Option LevelEnabler → Bool
  | none => false
  | some le => le.Enabled (-2)

/-- `Options.addDefaults`, mirroring the Go statement for statement. -/
def Options.addDefaults (o : Options) : Options :=
  let o1 : Options :=
    match o.DestWritter with
    | none => { o with DestWritter := some Writer.stderr }
    | some _ => o
  let o2 : Options :=
    if o1.Development then
      let a : Options :=
        match o1.NewEncoder with
        | none => { o1 with NewEncoder := some NewEncoderFunc.newConsoleEncoder }
        | some _ => o1
      let b : Options :=
        match a.Level with
        | none => { a with Level := some (LevelEnabler.atomic DebugLevel) }
        | some _ => a
      let c : Options :=
        match b.StacktraceLevel with
        | none => { b with StacktraceLevel := some (LevelEnabler.atomic WarnLevel) }
        | some _ => b
      { c with ZapOpts := c.ZapOpts ++ [ZapOpt.development] }
    else
      let a : Options :=
        match o1.NewEncoder with
        | none => { o1 with NewEncoder := some NewEncoderFunc.newJSONEncoder }
        | some _ => o1
      let b : Options :=
        match a.Level with
        | none => { a with Level := some (LevelEnabler.atomic InfoLevel) }
        | some _ => a
      let c : Options :=
        match b.StacktraceLevel with
        | none => { b with StacktraceLevel := some (LevelEnabler.atomic ErrorLevel) }
        | some _ => b
      if !(levelEnabledNeg2 c.Level) then
        { c with ZapOpts := c.ZapOpts ++ [samplerOpt] }
      else c
  let o3 : Options :=
    match o2.Encoder with
    | none =>
        { o2 with Encoder := o2.NewEncoder.map (fun f => f.run o2.EncoderConfigOptions) }
    | some _ => o2
  { o3 with ZapOpts := o3.ZapOpts ++ [ZapOpt.addStacktrace o3.StacktraceLevel] }

/-- A functional option (`Opts func(*Options)`): the setters exported by
the Go file.  `useFlagOptions rec` is `UseFlagOptions(&rec)`, whose body
`*o = *in` replaces the whole record by a value copy of `rec`. -/
inductive Opt where
  | useDevMode : Bool → Opt
  | writeTo : Writer → Opt
  | encoder : ZapEncoder → Opt
  | jsonEncoder : List EncoderConfigOption → Opt
  | consoleEncoder : List EncoderConfigOption → Opt
  | level : LevelEnabler → Opt
  | stacktraceLevel : LevelEnabler → Opt
  | rawZapOpts : List ZapOpt → Opt
  | useFlagOptions : Options → Opt
deriving DecidableEq, Repr

/-- `opt(o)`: the body of each setter from the Go file. -/
def applyOpt (o : Options) : Opt → Options
  | .useDevMode b => { o with Development := b }
  | .writeTo w => { o with DestWritter := some w }
  | .encoder e => { o with Encoder := some e }
  | .jsonEncoder cs => { o with Encoder := some (newJSONEncoder cs) }
  | .consoleEncoder cs => { o with Encoder := some (newConsoleEncoder cs) }
  | .level l => { o with Level := some l }
  | .stacktraceLevel l => { o with StacktraceLevel := some l }
  | .rawZapOpts zs => { o with ZapOpts := o.ZapOpts ++ zs }
  | .useFlagOptions rec => rec

/-- The `for _, opt := range opts { opt(o) }` loop of `NewRaw`. -/
def applyOpts (o : Options) (opts : List Opt) : Options :=
  opts.foldl applyOpt o

/-- The `KubeAwareEncoder` literal built by `NewRaw`. -/
structure KubeAwareEncoder where
  Encoder : Option ZapEncoder
  Verbose : Bool
deriving DecidableEq, Repr

/-- A `zapcore.Core` as built by `zapcore.NewCore(enc, ws, enab)`. -/
structure Core where
  enc : KubeAwareEncoder
  ws : Sink
  enab : Option LevelEnabler
deriving DecidableEq, Repr

/-- `zapcore.NewCore`. -/
def zapcoreNewCore (enc : KubeAwareEncoder) (ws : Sink) (enab : Option LevelEnabler) :
    Core :=
  ⟨enc, ws, enab⟩

/-- A `*zap.Logger`: its core plus the `zap.Option` values applied to it,
in application order. -/
structure ZapLogger where
  core : Core
  applied : List ZapOpt
deriving DecidableEq, Repr

/-- `zap.New(core)`: a logger with no options applied yet. -/
def zapNew (core : Core) : ZapLogger := ⟨core, []⟩

/-- `log.WithOptions(opts...)`: applies the options in order. -/
def ZapLogger.withOptions (log : ZapLogger) (opts : List ZapOpt) : ZapLogger :=
  { log with applied := log.applied ++ opts }

/-- `NewRaw`, mirroring the Go statement for statement. -/
def NewRaw (opts : List Opt) : ZapLogger :=
  let o := applyOpts Options.empty opts
  let o := o.addDefaults
  let sink := zapcoreAddSync o.DestWritter
  let o := { o with ZapOpts := o.ZapOpts ++ [ZapOpt.addCallerSkip 1, ZapOpt.errorOutput sink] }
  let log := zapNew (zapcoreNewCore ⟨o.Encoder, o.Development⟩ sink o.Level)
  log.withOptions o.ZapOpts

/-- The `Options` field a CLI flag writes through its bound variable or
`setFunc` closure. -/
inductive FlagTarget where
  | development
  | newEncoder
  | level
  | stacktraceLevel
deriving DecidableEq, Repr

/-- A flag registration made by `BindFlags`: its name and the `Options`
field its parsed value is written to. -/
structure FlagDef where
  name : String
  target : FlagTarget
deriving DecidableEq, Repr

/-- The flag registrations `Options.BindFlags` performs on the given flag
set, in source order: `fs.BoolVar(&o.Development, "zap-devel", ...)`,
`fs.Var(&encVal, "zap-encoder", ...)` (whose `setFunc` writes
`o.NewEncoder`), `fs.Var(&levelVal, "zap-log-level", ...)` (writes
`o.Level`), `fs.Var(&stackVal, "zap-stacktrace-level", ...)` (writes
`o.StacktraceLevel`). -/
def Options.bindFlags : List FlagDef :=
  [⟨"zap-devel", FlagTarget.development⟩,
   ⟨"zap-encoder", FlagTarget.newEncoder⟩,
   ⟨"zap-log-level", FlagTarget.level⟩,
   ⟨"zap-stacktrace-level", FlagTarget.stacktraceLevel⟩]

/-- Modelled from the spec: `strconv.ParseBool` as used by the standard
`flag` package for the `BoolVar`-registered `zap-devel` flag (the `flag`
package is not part of this repository's sources). -/
def parseBoolValue : String → Except String Bool
  | "true" => Except.ok true
  | "false" => Except.ok false
  | s => Except.error ("invalid boolean value " ++ s)

/-- Modelled from the spec: `encoderFlag.Set` (the flag value types are
declared in this package but their file is not under the provided
sources).  Per the spec, the encoder-name flag accepts `json` or
`console` and resolves the name to the corresponding encoder
constructor. -/
def parseEncoderValue : String → Except String NewEncoderFunc
  | "json" => Except.ok NewEncoderFunc.newJSONEncoder
  | "console" => Except.ok NewEncoderFunc.newConsoleEncoder
  | s => Except.error ("invalid encoder value " ++ s)

/-- The numeric value of a decimal digit character. -/
def digitVal (c : Char) : Option Nat :=
  if c.isDigit then some (c.toNat - 48) else none

/-- Decimal accumulation over a character list. -/
def parseNatCore : List Char → Nat → Option Nat
  | [], acc => some acc
  | c :: cs, acc =>
    match digitVal c with
    | some d => parseNatCore cs (acc * 10 + d)
    | none => none

/-- `strconv.Atoi` on a non-negative decimal numeral: the whole string
must be digits and non-empty. -/
def parseNatValue (s : String) : Option Nat :=
  match s.data with
  | [] => none
  | l => parseNatCore l 0

/-- Modelled from the spec: `levelFlag.Set` (file not under the provided
sources).  Per the spec, the level flag accepts the named levels `debug`,
`info`, `error`, or any integer value > 0, which corresponds to the
custom debug verbosity tier of that number (zap level `-n`). -/
def parseLevelValue (s : String) : Except String LevelEnabler :=
  match s with
  | "debug" => Except.ok (LevelEnabler.atomic DebugLevel)
  | "info" => Except.ok (LevelEnabler.atomic InfoLevel)
  | "error" => Except.ok (LevelEnabler.atomic ErrorLevel)
  | _ =>
    match parseNatValue s with
    | some n =>
        if 0 < n then Except.ok (LevelEnabler.atomic (-(n : Int)))
        else Except.error ("invalid log level " ++ s)
    | none => Except.error ("invalid log level " ++ s)

/-- Modelled from the spec: `stackTraceFlag.Set` (file not under the
provided sources).  Per the spec, the stack-trace-level flag accepts the
named levels `info` or `error`. -/
def parseStacktraceValue : String → Except String LevelEnabler
  | "info" => Except.ok (LevelEnabler.atomic InfoLevel)
  | "error" => Except.ok (LevelEnabler.atomic ErrorLevel)
  | s => Except.error ("invalid stacktrace level " ++ s)

/-- Parsing one `name=value` flag occurrence against an `Options` record
bound by `BindFlags`: the parsed value is written, through the bound
variable or the registered `setFunc` closure, to the field `BindFlags`
wired for that flag. -/
def applyFlag (o : Options) (name value : String) : Except String Options :=
  if name = "zap-devel" then
    (parseBoolValue value).map (fun b => { o with Development := b })
  else if name = "zap-encoder" then
    (parseEncoderValue value).map (fun f => { o with NewEncoder := some f })
  else if name = "zap-log-level" then
    (parseLevelValue value).map (fun l => { o with Level := some l })
  else if name = "zap-stacktrace-level" then
    (parseStacktraceValue value).map (fun l => { o with StacktraceLevel := some l })
  else Except.error ("flag provided but not defined: " ++ name)

/-- Parsing a sequence of flag occurrences in command-line order. -/
def applyFlags (o : Options) (args : List (String × String)) : Except String Options :=
  args.foldlM (fun o p => applyFlag o p.1 p.2) o

/-!
Heap model for pointer aliasing.  Go's `NewRaw` allocates a fresh
`Options` record (`o := &Options{}`) and all its mutations go through
that pointer; `UseFlagOptions(in)` copies the record at `in` by value
(`*o = *in`).  To settle the frame claim about the caller's record we
model the heap explicitly: a list of `Options` cells, pointers are
indices.
-/

/-- A heap of `Options` records; a Go `*Options` is an index into it. -/
abbrev Heap := List Options

/-- Dereference a pointer (out-of-range reads return the zero record;
they never occur in the modelled runs). -/
def readPtr (h : Heap) (p : Nat) : Options :=
  (List.get? h p).getD Options.empty

/-- Write through a pointer. -/
def writePtr (h : Heap) (p : Nat) (v : Options) : Heap :=
  List.set h p v

/-- Heap length. -/
def Heap.size (h : Heap) : Nat := List.length h

/-- An `Opts` argument to `NewRaw` in the heap model:
`UseFlagOptions(&rec)` closes over a pointer to the caller's record;
every other setter only touches the record its argument points at. -/
inductive OptRef where
  | useFlagOptions : Nat → OptRef
  | plain : Opt → OptRef

/-- Running one `opt(o)` against the target pointer `p`:
`UseFlagOptions`'s body `*o = *in` reads the source record and writes a
value copy to `p`; a plain setter reads `p`, updates, writes back. -/
def applyOptRef (p : Nat) (h : Heap) (r : OptRef) : Heap :=
  match r with
  | .useFlagOptions src => writePtr h p (readPtr h src)
  | .plain op => writePtr h p (applyOpt (readPtr h p) op)

/-- `NewRaw` in the heap model: allocate a fresh zero record, run the
option setters against it, run `addDefaults` and the `ZapOpts` appends
through the same pointer, and build the logger from the final record. -/
def newRawHeap (h : Heap) (opts : List OptRef) : Heap × ZapLogger :=
  let p := h.size
  let h1 : Heap := List.append h [Options.empty]
  let h2 := opts.foldl (applyOptRef p) h1
  let h3 := writePtr h2 p ((readPtr h2 p).addDefaults)
  let o := readPtr h3 p
  let sink := zapcoreAddSync o.DestWritter
  let h4 := writePtr h3 p
    { o with ZapOpts := o.ZapOpts ++ [ZapOpt.addCallerSkip 1, ZapOpt.errorOutput sink] }
  let o := readPtr h4 p
  let log := zapNew (zapcoreNewCore ⟨o.Encoder, o.Development⟩ sink o.Level)
  (h4, log.withOptions o.ZapOpts)

/-!
Derived characterization of `addDefaults`, proved from the sequential
definition: each nil-able field ends up `some` of its entry value when
set, or of the branch default when unset; the `ZapOpts` list gains the
development marker (dev mode) or possibly the sampler (production mode),
then the stack-trace option, in order.
-/

/-- The effective `NewEncoder` after defaulting. -/
def effNewEncoder (o : Options) : NewEncoderFunc :=
  o.NewEncoder.getD
    (if o.Development then NewEncoderFunc.newConsoleEncoder else NewEncoderFunc.newJSONEncoder)

/-- The effective `Level` after defaulting. -/
def effLevel (o : Options) : LevelEnabler :=
  o.Level.getD (LevelEnabler.atomic (if o.Development then DebugLevel else InfoLevel))

/-- The effective `StacktraceLevel` after defaulting. -/
def effStacktraceLevel (o : Options) : LevelEnabler :=
  o.StacktraceLevel.getD (LevelEnabler.atomic (if o.Development then WarnLevel else ErrorLevel))

/-- The `zap.Option` values `addDefaults` appends to `ZapOpts`. -/
def effAppendedZapOpts (o : Options) : List ZapOpt :=
  (if o.Development then [ZapOpt.development]
   else if !((effLevel o).Enabled (-2)) then [samplerOpt] else []) ++
  [ZapOpt.addStacktrace (some (effStacktraceLevel o))]

/-- Closed form of `addDefaults`. -/
theorem addDefaults_characterization (o : Options) :
    o.addDefaults =
      { Development := o.Development
        Encoder := some (o.Encoder.getD ((effNewEncoder o).run o.EncoderConfigOptions))
        EncoderConfigOptions := o.EncoderConfigOptions
        NewEncoder := some (effNewEncoder o)
        DestWritter := some (o.DestWritter.getD Writer.stderr)
        Level := some (effLevel o)
        StacktraceLevel := some (effStacktraceLevel o)
        ZapOpts := o.ZapOpts ++ effAppendedZapOpts o } := by
  obtain ⟨dev, enc, ecos, nenc, dw, lvl, st, zs⟩ := o
  cases dev <;> cases enc <;> cases nenc <;> cases dw <;> cases lvl <;> cases st <;>
    simp [Options.addDefaults, levelEnabledNeg2, effNewEncoder, effLevel,
      effStacktraceLevel, effAppendedZapOpts, NewEncoderFunc.run] <;>
    split_ifs <;>
    simp_all [LevelEnabler.Enabled, InfoLevel]

/-- C1 (amended): for every Options record with Development false,
addDefaults sets NewEncoder to the JSON encoder constructor when it was
unset, Level to an Info-level threshold when it was unset,
StacktraceLevel to an Error-level threshold when it was unset, and
appends to ZapOpts a sampling core wrapper with a one-second window that
logs the first 100 entries fully and thereafter 1-in-100 — unless the
(possibly caller-set, else Info-defaulted) Level already enables the
custom verbose debug tier (level -2 or more verbose), in which case no
sampler is appended — followed by the stack-trace option. -/
theorem zapC1_production_defaults (o : Options) (h : o.Development = false) :
    (o.NewEncoder = none →
      (o.addDefaults).NewEncoder = some NewEncoderFunc.newJSONEncoder)
  ∧ (o.Level = none →
      (o.addDefaults).Level = some (LevelEnabler.atomic InfoLevel))
  ∧ (o.StacktraceLevel = none →
      (o.addDefaults).StacktraceLevel = some (LevelEnabler.atomic ErrorLevel))
  ∧ (o.addDefaults).ZapOpts =
      o.ZapOpts ++
        (if !((o.Level.getD (LevelEnabler.atomic InfoLevel)).Enabled (-2)) then
          [ZapOpt.wrapCoreSampler 1 100 100]
        else []) ++
        [ZapOpt.addStacktrace
          (some (o.StacktraceLevel.getD (LevelEnabler.atomic ErrorLevel)))] := by
  rw [addDefaults_characterization]
  refine ⟨fun hn => ?_, fun hl => ?_, fun hs => ?_, ?_⟩
  · simp [effNewEncoder, h, hn]
  · simp [effLevel, h, hl]
  · simp [effStacktraceLevel, h, hs]
  · simp [effAppendedZapOpts, effLevel, effStacktraceLevel, samplerOpt, h,
      List.append_assoc]

/-- Witness for C1 at the zero-valued record: all three fields were
unset, the Info default does not enable level -2, so the sampler is
appended. -/
theorem zapC1_production_defaults_witness :
    (Options.empty.addDefaults).NewEncoder = some NewEncoderFunc.newJSONEncoder
  ∧ (Options.empty.addDefaults).Level = some (LevelEnabler.atomic InfoLevel)
  ∧ (Options.empty.addDefaults).StacktraceLevel = some (LevelEnabler.atomic ErrorLevel)
  ∧ (Options.empty.addDefaults).ZapOpts =
      Options.empty.ZapOpts ++
        (if !((Options.empty.Level.getD (LevelEnabler.atomic InfoLevel)).Enabled (-2)) then
          [ZapOpt.wrapCoreSampler 1 100 100]
        else []) ++
        [ZapOpt.addStacktrace
          (some (Options.empty.StacktraceLevel.getD (LevelEnabler.atomic ErrorLevel)))] :=
  ⟨(zapC1_production_defaults Options.empty rfl).1 rfl,
   (zapC1_production_defaults Options.empty rfl).2.1 rfl,
   (zapC1_production_defaults Options.empty rfl).2.2.1 rfl,
   (zapC1_production_defaults Options.empty rfl).2.2.2⟩

/-- C1 as stated is false: a production-mode record whose Level was
already set (here to Debug) does not leave addDefaults with an
Info-level minimum threshold. -/
theorem zapC1_claim_counterexample :
    ¬ (({ Options.empty with
          Level := some (LevelEnabler.atomic DebugLevel) }).addDefaults.Level
        = some (LevelEnabler.atomic InfoLevel)) := by decide

/-- C2 (amended): for every Options record with Development true,
addDefaults sets NewEncoder to the console encoder constructor when it
was unset, Level to a Debug-level threshold when it was unset,
StacktraceLevel to a Warn-level threshold when it was unset, and appends
to ZapOpts exactly the zap.Development marker followed by the
stack-trace option — in particular no sampling wrapper. -/
theorem zapC2_development_defaults (o : Options) (h : o.Development = true) :
    (o.NewEncoder = none →
      (o.addDefaults).NewEncoder = some NewEncoderFunc.newConsoleEncoder)
  ∧ (o.Level = none →
      (o.addDefaults).Level = some (LevelEnabler.atomic DebugLevel))
  ∧ (o.StacktraceLevel = none →
      (o.addDefaults).StacktraceLevel = some (LevelEnabler.atomic WarnLevel))
  ∧ (o.addDefaults).ZapOpts =
      o.ZapOpts ++ [ZapOpt.development] ++
        [ZapOpt.addStacktrace
          (some (o.StacktraceLevel.getD (LevelEnabler.atomic WarnLevel)))] := by
  rw [addDefaults_characterization]
  refine ⟨fun hn => ?_, fun hl => ?_, fun hs => ?_, ?_⟩
  · simp [effNewEncoder, h, hn]
  · simp [effLevel, h, hl]
  · simp [effStacktraceLevel, h, hs]
  · simp [effAppendedZapOpts, effStacktraceLevel, h, List.append_assoc]

/-- Witness for C2 at the zero-valued record with Development set. -/
theorem zapC2_development_defaults_witness :
    (({ Options.empty with Development := true }).addDefaults).NewEncoder
        = some NewEncoderFunc.newConsoleEncoder
  ∧ (({ Options.empty with Development := true }).addDefaults).Level
        = some (LevelEnabler.atomic DebugLevel)
  ∧ (({ Options.empty with Development := true }).addDefaults).StacktraceLevel
        = some (LevelEnabler.atomic WarnLevel)
  ∧ (({ Options.empty with Development := true }).addDefaults).ZapOpts =
      ({ Options.empty with Development := true }).ZapOpts ++ [ZapOpt.development] ++
        [ZapOpt.addStacktrace
          (some (({ Options.empty with Development := true }).StacktraceLevel.getD
            (LevelEnabler.atomic WarnLevel)))] :=
  ⟨(zapC2_development_defaults { Options.empty with Development := true } rfl).1 rfl,
   (zapC2_development_defaults { Options.empty with Development := true } rfl).2.1 rfl,
   (zapC2_development_defaults { Options.empty with Development := true } rfl).2.2.1 rfl,
   (zapC2_development_defaults { Options.empty with Development := true } rfl).2.2.2⟩

/-- C2 as stated is false: a development-mode record whose Level was
already set (here to Error) does not leave addDefaults with a
Debug-level minimum threshold. -/
theorem zapC2_claim_counterexample :
    ¬ (({ Options.empty with
          Development := true
          Level := some (LevelEnabler.atomic ErrorLevel) }).addDefaults.Level
        = some (LevelEnabler.atomic DebugLevel)) := by decide

/-- C8: addDefaults only fills unset fields — every one of DestWritter,
NewEncoder, Level, StacktraceLevel, Encoder that is non-nil on entry has
the same value on exit, in both the development and production branch
(the record's Development flag is arbitrary here). -/
theorem zapC8_preset_fields_preserved (o : Options) :
    (o.DestWritter ≠ none → (o.addDefaults).DestWritter = o.DestWritter)
  ∧ (o.NewEncoder ≠ none → (o.addDefaults).NewEncoder = o.NewEncoder)
  ∧ (o.Level ≠ none → (o.addDefaults).Level = o.Level)
  ∧ (o.StacktraceLevel ≠ none → (o.addDefaults).StacktraceLevel = o.StacktraceLevel)
  ∧ (o.Encoder ≠ none → (o.addDefaults).Encoder = o.Encoder) := by
  rw [addDefaults_characterization]
  refine ⟨fun h1 => ?_, fun h2 => ?_, fun h3 => ?_, fun h4 => ?_, fun h5 => ?_⟩
  · obtain ⟨v, hv⟩ := Option.ne_none_iff_exists'.mp h1
    simp [hv]
  · obtain ⟨v, hv⟩ := Option.ne_none_iff_exists'.mp h2
    simp [effNewEncoder, hv]
  · obtain ⟨v, hv⟩ := Option.ne_none_iff_exists'.mp h3
    simp [effLevel, hv]
  · obtain ⟨v, hv⟩ := Option.ne_none_iff_exists'.mp h4
    simp [effStacktraceLevel, hv]
  · obtain ⟨v, hv⟩ := Option.ne_none_iff_exists'.mp h5
    simp [hv]

/-- A record with every nil-able field pre-set (Development true, so the
development branch of addDefaults runs). -/
def presetRecord : Options :=
  { Development := true,
    Encoder := some (ZapEncoder.customEncoder 7),
    EncoderConfigOptions := [1, 2],
    NewEncoder := some (NewEncoderFunc.custom 3),
    DestWritter := some (Writer.custom 4),
    Level := some (LevelEnabler.atomic ErrorLevel),
    StacktraceLevel := some (LevelEnabler.atomic InfoLevel),
    ZapOpts := [ZapOpt.custom 9] }

/-- Witness for C8 at a record with every nil-able field pre-set. -/
theorem zapC8_preset_fields_preserved_witness :
    (presetRecord.addDefaults).DestWritter = presetRecord.DestWritter
  ∧ (presetRecord.addDefaults).NewEncoder = presetRecord.NewEncoder
  ∧ (presetRecord.addDefaults).Level = presetRecord.Level
  ∧ (presetRecord.addDefaults).StacktraceLevel = presetRecord.StacktraceLevel
  ∧ (presetRecord.addDefaults).Encoder = presetRecord.Encoder :=
  ⟨(zapC8_preset_fields_preserved presetRecord).1 (by decide),
   (zapC8_preset_fields_preserved presetRecord).2.1 (by decide),
   (zapC8_preset_fields_preserved presetRecord).2.2.1 (by decide),
   (zapC8_preset_fields_preserved presetRecord).2.2.2.1 (by decide),
   (zapC8_preset_fields_preserved presetRecord).2.2.2.2 (by decide)⟩

/-- C3: when Encoder is already non-nil, addDefaults leaves it
unchanged; the NewEncoder constructor is never consulted (replacing it
by any value gives the same Encoder) and the EncoderConfigOptions
customizers have no effect (replacing them changes nothing but that
field itself); and the logger NewRaw constructs uses the explicitly set
Encoder. -/
theorem zapC3_explicit_encoder_wins (o : Options) (e : ZapEncoder)
    (nk : Option NewEncoderFunc) (ecos : List EncoderConfigOption) (opts : List Opt)
    (h : o.Encoder = some e)
    (ho : (applyOpts Options.empty opts).Encoder = some e) :
    (o.addDefaults).Encoder = some e
  ∧ (({ o with NewEncoder := nk }).addDefaults).Encoder = some e
  ∧ ({ o with EncoderConfigOptions := ecos }).addDefaults =
      { o.addDefaults with EncoderConfigOptions := ecos }
  ∧ (NewRaw opts).core.enc.Encoder = some e := by
  refine ⟨?_, ?_, ?_, ?_⟩
  · rw [addDefaults_characterization]
    simp [h]
  · rw [addDefaults_characterization]
    simp [h]
  · rw [addDefaults_characterization, addDefaults_characterization]
    simp [effNewEncoder, effLevel, effStacktraceLevel, effAppendedZapOpts, h]
  · show (applyOpts Options.empty opts).addDefaults.Encoder = some e
    rw [addDefaults_characterization]
    simp [ho]

/-- Witness for C3: an explicitly set custom encoder survives
defaulting, ignores a json NewEncoder and a customizer list, and is the
one in the constructed logger core. -/
theorem zapC3_explicit_encoder_wins_witness :
    (({ Options.empty with
        Encoder := some (ZapEncoder.customEncoder 7) }).addDefaults).Encoder
      = some (ZapEncoder.customEncoder 7)
  ∧ (({ { Options.empty with Encoder := some (ZapEncoder.customEncoder 7) } with
        NewEncoder := some NewEncoderFunc.newJSONEncoder }).addDefaults).Encoder
      = some (ZapEncoder.customEncoder 7)
  ∧ ({ { Options.empty with Encoder := some (ZapEncoder.customEncoder 7) } with
        EncoderConfigOptions := [5] }).addDefaults =
      { ({ Options.empty with
           Encoder := some (ZapEncoder.customEncoder 7) }).addDefaults with
        EncoderConfigOptions := [5] }
  ∧ (NewRaw [Opt.encoder (ZapEncoder.customEncoder 7)]).core.enc.Encoder
      = some (ZapEncoder.customEncoder 7) :=
  zapC3_explicit_encoder_wins
    { Options.empty with Encoder := some (ZapEncoder.customEncoder 7) }
    (ZapEncoder.customEncoder 7)
    (some NewEncoderFunc.newJSONEncoder) [5]
    [Opt.encoder (ZapEncoder.customEncoder 7)] rfl rfl

/-- C6: NewRaw wraps the chosen destination in a synchronized sink,
builds the core from the KubeAwareEncoder decorator (Verbose = the
Development flag) around the chosen encoder, the sink, and the level,
and applies every accumulated ZapOpts option followed by the fixed
caller-skip of 1 and the error-output routing to that same sink. -/
theorem zapC6_newRaw_structure (opts : List Opt) :
    (NewRaw opts).core.ws =
      Sink.synced ((applyOpts Options.empty opts).addDefaults.DestWritter)
  ∧ (NewRaw opts).core.enc =
      ⟨(applyOpts Options.empty opts).addDefaults.Encoder,
       (applyOpts Options.empty opts).addDefaults.Development⟩
  ∧ (NewRaw opts).core.enab = (applyOpts Options.empty opts).addDefaults.Level
  ∧ (NewRaw opts).applied =
      (applyOpts Options.empty opts).addDefaults.ZapOpts ++
        [ZapOpt.addCallerSkip 1,
         ZapOpt.errorOutput
           (Sink.synced ((applyOpts Options.empty opts).addDefaults.DestWritter))] :=
  ⟨rfl, rfl, rfl, rfl⟩

/-- C10: a nil DestWritter is defaulted to standard error (whatever the
Development flag), and a logger built from options leaving it unset gets
a stderr-backed synchronized sink and routes encoder errors there. -/
theorem zapC10_stderr_default (o : Options) (opts : List Opt)
    (h : o.DestWritter = none)
    (h2 : (applyOpts Options.empty opts).DestWritter = none) :
    (o.addDefaults).DestWritter = some Writer.stderr
  ∧ (NewRaw opts).core.ws = Sink.synced (some Writer.stderr)
  ∧ ZapOpt.errorOutput (Sink.synced (some Writer.stderr)) ∈ (NewRaw opts).applied := by
  have hD : (applyOpts Options.empty opts).addDefaults.DestWritter = some Writer.stderr := by
    rw [addDefaults_characterization]
    simp [h2]
  refine ⟨?_, ?_, ?_⟩
  · rw [addDefaults_characterization]
    simp [h]
  · show Sink.synced ((applyOpts Options.empty opts).addDefaults.DestWritter) = _
    rw [hD]
  · have happ : (NewRaw opts).applied =
        (applyOpts Options.empty opts).addDefaults.ZapOpts ++
          [ZapOpt.addCallerSkip 1,
           ZapOpt.errorOutput
             (Sink.synced ((applyOpts Options.empty opts).addDefaults.DestWritter))] := rfl
    rw [happ, hD]
    simp

/-- Witness for C10 at the empty option list: nothing sets the
destination, so everything lands on stderr. -/
theorem zapC10_stderr_default_witness :
    (Options.empty.addDefaults).DestWritter = some Writer.stderr
  ∧ (NewRaw []).core.ws = Sink.synced (some Writer.stderr)
  ∧ ZapOpt.errorOutput (Sink.synced (some Writer.stderr)) ∈ (NewRaw []).applied :=
  zapC10_stderr_default Options.empty [] rfl rfl

/-- The Encoder value a direct encoder-choosing setter writes,
independent of the record it is applied to. -/
def Opt.encoderWritten : Opt → Option ZapEncoder
  | .encoder e => some e
  | .jsonEncoder cs => some (newJSONEncoder cs)
  | .consoleEncoder cs => some (newConsoleEncoder cs)
  | _ => none

/-- The fields of the Options record. -/
inductive Field where
  | development
  | encoder
  | encoderConfigOptions
  | newEncoder
  | destWritter
  | level
  | stacktraceLevel
  | zapOpts
deriving DecidableEq, Repr

/-- The value of one field, tagged with the field it came from. -/
inductive FieldValue where
  | development : Bool → FieldValue
  | encoder : Option ZapEncoder → FieldValue
  | encoderConfigOptions : List EncoderConfigOption → FieldValue
  | newEncoder : Option NewEncoderFunc → FieldValue
  | destWritter : Option Writer → FieldValue
  | level : Option LevelEnabler → FieldValue
  | stacktraceLevel : Option LevelEnabler → FieldValue
  | zapOpts : List ZapOpt → FieldValue
deriving DecidableEq, Repr

/-- Project one field of a record. -/
def Options.fieldVal (o : Options) : Field → FieldValue
  | .development => FieldValue.development o.Development
  | .encoder => FieldValue.encoder o.Encoder
  | .encoderConfigOptions => FieldValue.encoderConfigOptions o.EncoderConfigOptions
  | .newEncoder => FieldValue.newEncoder o.NewEncoder
  | .destWritter => FieldValue.destWritter o.DestWritter
  | .level => FieldValue.level o.Level
  | .stacktraceLevel => FieldValue.stacktraceLevel o.StacktraceLevel
  | .zapOpts => FieldValue.zapOpts o.ZapOpts

/-- Which fields a setter writes: each plain setter writes its single
target field (`RawZapOpts` writes `ZapOpts`, by appending);
`UseFlagOptions` overwrites the whole record, hence every field. -/
def Opt.writesField : Opt → Field → Bool
  | .useDevMode _, .development => true
  | .writeTo _, .destWritter => true
  | .encoder _, .encoder => true
  | .jsonEncoder _, .encoder => true
  | .consoleEncoder _, .encoder => true
  | .level _, .level => true
  | .stacktraceLevel _, .stacktraceLevel => true
  | .rawZapOpts _, .zapOpts => true
  | .useFlagOptions _, _ => true
  | _, _ => false

/-- Whether a setter is the whole-record overwrite `UseFlagOptions`. -/
def Opt.isUseFlagOptions : Opt → Bool
  | .useFlagOptions _ => true
  | _ => false

/-- A setter leaves untouched every field it does not write. -/
theorem applyOpt_field_frame (o : Options) (x : Opt) (g : Field)
    (hx : x.writesField g = false) : (applyOpt o x).fieldVal g = o.fieldVal g := by
  cases x <;> cases g <;> simp_all [Opt.writesField, applyOpt, Options.fieldVal]

/-- A setter sequence none of which writes field `g` leaves it
untouched. -/
theorem applyOpts_field_frame (l : List Opt) (o : Options) (g : Field)
    (hl : ∀ x ∈ l, x.writesField g = false) :
    (applyOpts o l).fieldVal g = o.fieldVal g := by
  induction l generalizing o with
  | nil => rfl
  | cons x xs ih =>
    rw [applyOpts, List.foldl_cons]
    rw [show List.foldl applyOpt (applyOpt o x) xs = applyOpts (applyOpt o x) xs from rfl]
    rw [ih _ fun y hy => hl y (List.mem_cons_of_mem _ hy)]
    exact applyOpt_field_frame o x g (hl x (List.mem_cons_self x xs))

/-- C5 (amended): option setters run in the order of the provided
sequence; every setter other than UseFlagOptions mutates exactly one
field — and every setter leaves untouched each field it does not
target; for any field, when a setter targeting it is followed only by
setters that do not target it, the final field value equals the value
that last targeting setter wrote (the field's value right after it
runs); a direct encoder-choosing setter writes exactly its encoder; and
parsing `-zap-encoder=console` then `-zap-encoder=json` leaves the JSON
constructor. -/
theorem zapC5_last_write_wins (o o2 o3 : Options) (l1 l2 : List Opt) (op op2 : Opt)
    (f : Field) (e : ZapEncoder)
    (hop : op.writesField f = true)
    (hl2 : ∀ x ∈ l2, x.writesField f = false)
    (hop2 : op2.encoderWritten = some e) :
    applyOpts o (l1 ++ op :: l2) = applyOpts (applyOpt (applyOpts o l1) op) l2
  ∧ (applyOpts o (l1 ++ op :: l2)).fieldVal f = (applyOpt (applyOpts o l1) op).fieldVal f
  ∧ (∀ (op3 : Opt) (g : Field), op3.writesField g = false →
      (applyOpt o2 op3).fieldVal g = o2.fieldVal g)
  ∧ (∀ op3 : Opt, op3.isUseFlagOptions = false →
      ∃! g : Field, op3.writesField g = true)
  ∧ (applyOpt o3 op2).Encoder = some e
  ∧ applyFlags Options.empty [("zap-encoder", "console"), ("zap-encoder", "json")]
      = Except.ok { Options.empty with NewEncoder := some NewEncoderFunc.newJSONEncoder } := by
  have hseq : applyOpts o (l1 ++ op :: l2) = applyOpts (applyOpt (applyOpts o l1) op) l2 := by
    simp [applyOpts, List.foldl_append]
  refine ⟨hseq, ?_, ?_, ?_, ?_, rfl⟩
  · rw [hseq]
    exact applyOpts_field_frame l2 _ f hl2
  · intro op3 g hg
    exact applyOpt_field_frame o2 op3 g hg
  · intro op3 h3
    cases op3 with
    | useDevMode b =>
        exact ⟨Field.development, rfl, fun y hy => by
          cases y <;> simp_all [Opt.writesField]⟩
    | writeTo w =>
        exact ⟨Field.destWritter, rfl, fun y hy => by
          cases y <;> simp_all [Opt.writesField]⟩
    | encoder e2 =>
        exact ⟨Field.encoder, rfl, fun y hy => by
          cases y <;> simp_all [Opt.writesField]⟩
    | jsonEncoder cs =>
        exact ⟨Field.encoder, rfl, fun y hy => by
          cases y <;> simp_all [Opt.writesField]⟩
    | consoleEncoder cs =>
        exact ⟨Field.encoder, rfl, fun y hy => by
          cases y <;> simp_all [Opt.writesField]⟩
    | level l =>
        exact ⟨Field.level, rfl, fun y hy => by
          cases y <;> simp_all [Opt.writesField]⟩
    | stacktraceLevel l =>
        exact ⟨Field.stacktraceLevel, rfl, fun y hy => by
          cases y <;> simp_all [Opt.writesField]⟩
    | rawZapOpts zs =>
        exact ⟨Field.zapOpts, rfl, fun y hy => by
          cases y <;> simp_all [Opt.writesField]⟩
    | useFlagOptions rec => simp [Opt.isUseFlagOptions] at h3
  · cases op2 with
    | encoder e2 =>
        injection hop2 with h5
        simp [applyOpt, h5]
    | jsonEncoder cs =>
        injection hop2 with h5
        simp [applyOpt, h5]
    | consoleEncoder cs =>
        injection hop2 with h5
        simp [applyOpt, h5]
    | useDevMode b => simp [Opt.encoderWritten] at hop2
    | writeTo w => simp [Opt.encoderWritten] at hop2
    | level l => simp [Opt.encoderWritten] at hop2
    | stacktraceLevel l => simp [Opt.encoderWritten] at hop2
    | rawZapOpts zs => simp [Opt.encoderWritten] at hop2
    | useFlagOptions rec => simp [Opt.encoderWritten] at hop2

/-- A record differing from the zero record in two fields. -/
def twoFieldRecord : Options :=
  { Options.empty with
    Development := true
    Level := some (LevelEnabler.atomic ErrorLevel) }

/-- C5 as stated is false: not every setter mutates exactly one field —
the UseFlagOptions setter, applied to the zero record with a record
whose Development and Level differ from it, changes both of those
fields. -/
theorem zapC5_claim_counterexample :
    ¬ ((applyOpt Options.empty (Opt.useFlagOptions twoFieldRecord)).Development
        = Options.empty.Development
      ∨ (applyOpt Options.empty (Opt.useFlagOptions twoFieldRecord)).Level
        = Options.empty.Level) := by decide

/-- Witness for C5: a Debug-level setter overridden by an Error-level
setter, with a later development-mode setter after it; the final Level
is the one the last Level setter wrote. -/
theorem zapC5_last_write_wins_witness :
    (applyOpts Options.empty
      ([Opt.level (LevelEnabler.atomic DebugLevel)] ++
        Opt.level (LevelEnabler.atomic ErrorLevel) :: [Opt.useDevMode true])).fieldVal
        Field.level
      = FieldValue.level (some (LevelEnabler.atomic ErrorLevel)) :=
  ((zapC5_last_write_wins Options.empty Options.empty Options.empty
      [Opt.level (LevelEnabler.atomic DebugLevel)] [Opt.useDevMode true]
      (Opt.level (LevelEnabler.atomic ErrorLevel)) (Opt.jsonEncoder [])
      Field.level (newJSONEncoder []) rfl (by decide) rfl).2.1).trans (by decide)

/-- C4 as stated is false: BindFlags performs four flag registrations,
not five. -/
theorem zapC4_claim_counterexample : Options.bindFlags.length ≠ 5 := by decide

/-- C4 (amended): BindFlags registers four CLI flags — zap-devel,
zap-encoder, zap-log-level, zap-stacktrace-level — each of which, when
parsed, mutates the bound Options record in place: the boolean
development-mode switch, the encoder-name flag resolved to an encoder
constructor, the log-level flag accepting named levels or arbitrary
positive integers, and the stack-trace-level flag accepting named
levels. -/
theorem zapC4_flag_registration (o : Options) (b : Bool) (f : NewEncoderFunc)
    (l sl : LevelEnabler) (s1 s2 s3 s4 : String)
    (h1 : parseBoolValue s1 = Except.ok b)
    (h2 : parseEncoderValue s2 = Except.ok f)
    (h3 : parseLevelValue s3 = Except.ok l)
    (h4 : parseStacktraceValue s4 = Except.ok sl) :
    Options.bindFlags.length = 4
  ∧ Options.bindFlags.map FlagDef.name =
      ["zap-devel", "zap-encoder", "zap-log-level", "zap-stacktrace-level"]
  ∧ applyFlag o "zap-devel" s1 = Except.ok { o with Development := b }
  ∧ applyFlag o "zap-encoder" s2 = Except.ok { o with NewEncoder := some f }
  ∧ applyFlag o "zap-log-level" s3 = Except.ok { o with Level := some l }
  ∧ applyFlag o "zap-stacktrace-level" s4 =
      Except.ok { o with StacktraceLevel := some sl } := by
  refine ⟨rfl, rfl, ?_, ?_, ?_, ?_⟩
  · simp [applyFlag, h1, Except.map]
  · simp [applyFlag, h2, Except.map]
  · simp [applyFlag, h3, Except.map]
  · simp [applyFlag, h4, Except.map]

/-- Witness for C4: concrete values for all four flags, including an
integer log level. -/
theorem zapC4_flag_registration_witness :
    Options.bindFlags.length = 4
  ∧ Options.bindFlags.map FlagDef.name =
      ["zap-devel", "zap-encoder", "zap-log-level", "zap-stacktrace-level"]
  ∧ applyFlag Options.empty "zap-devel" "true" =
      Except.ok { Options.empty with Development := true }
  ∧ applyFlag Options.empty "zap-encoder" "json" =
      Except.ok { Options.empty with NewEncoder := some NewEncoderFunc.newJSONEncoder }
  ∧ applyFlag Options.empty "zap-log-level" "8" =
      Except.ok { Options.empty with Level := some (LevelEnabler.atomic (-8)) }
  ∧ applyFlag Options.empty "zap-stacktrace-level" "error" =
      Except.ok { Options.empty with StacktraceLevel := some (LevelEnabler.atomic ErrorLevel) } :=
  zapC4_flag_registration Options.empty true NewEncoderFunc.newJSONEncoder
    (LevelEnabler.atomic (-8)) (LevelEnabler.atomic ErrorLevel)
    "true" "json" "8" "error" rfl rfl rfl rfl

/-- C7: parsing the flag value `-zap-log-level=5` sets Level to the
enabler for custom debug verbosity tier 5 (zap level -5); that level
enables the verbose tier (level -2), so production-mode defaulting
appends no sampling wrapper (only the stack-trace option). -/
theorem zapC7_level5_disables_sampling (o o2 : Options)
    (hparse : applyFlag o "zap-log-level" "5" = Except.ok o2)
    (hdev : o2.Development = false) :
    o2.Level = some (LevelEnabler.atomic (-5))
  ∧ (LevelEnabler.atomic (-5)).Enabled (-2) = true
  ∧ (o2.addDefaults).ZapOpts =
      o2.ZapOpts ++
        [ZapOpt.addStacktrace
          (some (o2.StacktraceLevel.getD (LevelEnabler.atomic ErrorLevel)))] := by
  have ho2 : (Except.ok { o with Level := some (LevelEnabler.atomic (-5)) } :
      Except String Options) = Except.ok o2 := hparse
  have hval : { o with Level := some (LevelEnabler.atomic (-5)) } = o2 := by
    injection ho2
  subst hval
  refine ⟨rfl, by decide, ?_⟩
  rw [addDefaults_characterization]
  simp only [Options.Development] at hdev
  simp [effAppendedZapOpts, effLevel, effStacktraceLevel, hdev, LevelEnabler.Enabled]

/-- Witness for C7 at the zero record: the parsed level survives to the
record and the defaulted ZapOpts hold no sampler. -/
theorem zapC7_level5_disables_sampling_witness :
    ({ Options.empty with Level := some (LevelEnabler.atomic (-5)) } : Options).Level
      = some (LevelEnabler.atomic (-5))
  ∧ (LevelEnabler.atomic (-5)).Enabled (-2) = true
  ∧ (({ Options.empty with
        Level := some (LevelEnabler.atomic (-5)) } : Options).addDefaults).ZapOpts =
      ({ Options.empty with Level := some (LevelEnabler.atomic (-5)) } : Options).ZapOpts ++
        [ZapOpt.addStacktrace
          (some (({ Options.empty with
            Level := some (LevelEnabler.atomic (-5)) } : Options).StacktraceLevel.getD
              (LevelEnabler.atomic ErrorLevel)))] :=
  zapC7_level5_disables_sampling Options.empty
    { Options.empty with Level := some (LevelEnabler.atomic (-5)) } rfl rfl

/-- Reading another cell is unaffected by a pointer write. -/
theorem readPtr_writePtr_ne (h : Heap) (p q : Nat) (v : Options) (hq : q ≠ p) :
    readPtr (writePtr h p v) q = readPtr h q := by
  simp [readPtr, writePtr, List.get?_eq_getElem?, List.getElem?_set_ne (Ne.symm hq)]

/-- The option-setter loop of `NewRaw` writes only through the target
pointer `p`. -/
theorem foldl_applyOptRef_readPtr (p q : Nat) (hq : q ≠ p) (rs : List OptRef)
    (h : Heap) : readPtr (rs.foldl (applyOptRef p) h) q = readPtr h q := by
  induction rs generalizing h with
  | nil => rfl
  | cons r rs ih =>
    rw [List.foldl_cons, ih]
    cases r <;> exact readPtr_writePtr_ne _ _ _ _ hq

/-- Every cell that existed before a `newRawHeap` run holds the same
record afterwards: the run only writes through the freshly allocated
internal pointer. -/
theorem newRawHeap_frame (h : Heap) (rs : List OptRef) (q : Nat)
    (hq : q < h.size) : readPtr (newRawHeap h rs).1 q = readPtr h q := by
  have hne : q ≠ h.size := Nat.ne_of_lt hq
  show readPtr (writePtr (writePtr
      (List.foldl (applyOptRef h.size) (List.append h [Options.empty]) rs) h.size _)
      h.size _) q = readPtr h q
  rw [readPtr_writePtr_ne _ _ _ _ hne, readPtr_writePtr_ne _ _ _ _ hne,
    foldl_applyOptRef_readPtr _ _ hne]
  simp [readPtr, List.get?_eq_getElem?]
  rw [List.getElem?_append, if_pos (show q < List.length h from hq)]

/-- C9: constructing a logger with `NewRaw(UseFlagOptions(in))` leaves
the caller's record untouched — `UseFlagOptions` copies it by value into
the freshly allocated internal record and every later mutation
(`addDefaults`, the ZapOpts appends) goes through the internal
pointer. -/
theorem zapC9_caller_record_unchanged (h : Heap) (p : Nat) (hp : p < h.size) :
    readPtr (newRawHeap h [OptRef.useFlagOptions p]).1 p = readPtr h p :=
  newRawHeap_frame h [OptRef.useFlagOptions p] p hp

/-- A pre-populated caller record for the C9 witness. -/
def callerRecord : Options :=
  { Development := true,
    Encoder := none,
    EncoderConfigOptions := [3],
    NewEncoder := some NewEncoderFunc.newJSONEncoder,
    DestWritter := some (Writer.custom 1),
    Level := some (LevelEnabler.atomic ErrorLevel),
    StacktraceLevel := none,
    ZapOpts := [ZapOpt.custom 2] }

/-- Witness for C9 on a one-cell heap holding a pre-populated record. -/
theorem zapC9_caller_record_unchanged_witness :
    readPtr (newRawHeap [callerRecord] [OptRef.useFlagOptions 0]).1 0 =
      readPtr [callerRecord] 0 :=
  zapC9_caller_record_unchanged [callerRecord] 0 (by decide)

end CRZap
